import Mathlib

/-!
Verification of the `GlueTransformStage` construct from
`src/core/aws_ddk_core/stages/glue_transform.py`.

The Python file declares an AWS Step Functions state machine that first runs
a Glue job and then starts a Glue crawler, plus two accessors used by the
pipeline layer (an EventBridge event entry and a list of rule targets).
The AWS CDK classes it instantiates (`GlueStartJobRun`, `CustomState`,
`PolicyStatement`, `EventBridgePutEventsEntry`, `SfnStateMachine`, ...)
are external declarative records: we embed them as plain structures holding
exactly the configuration the Python code passes to them.  CDK's
`State.next` builds a purely sequential chain of states, which we embed as a
list (in source order); a list has no branching and no fan-out by
construction.
-/

namespace AwsDdk

/-- JSON-like values, used for the crawler task's literal `state_json` and
for dictionaries passed as Glue job arguments, task inputs and event
details (Python `Dict[str, Any]`). -/
inductive Json where
  | str : String → Json
  | obj : List (String × Json) → Json
deriving Repr

/-- A Python `Dict[str, Any]` of configuration values, in insertion order. -/
abbrev Dict := List (String × Json)

/-- Look a key up in a JSON object (first binding wins, as dict keys in the
source are distinct). -/
def Json.lookup : Json → String → Option Json
  | .str _, _ => none
  | .obj fields, k =>
    match fields.find? (fun p => p.1 = k) with
    | some p => some p.2
    | none => none

/-- Python truthiness of an `Optional[Dict]`: `None` and the empty dict are
falsy, a non-empty dict is truthy. -/
def dictTruthy : Option Dict → Bool
  | none => false
  | some d => !d.isEmpty

/-- CDK `aws_stepfunctions.TaskInput`, produced by `TaskInput.from_object`. -/
structure TaskInput where
  obj : Dict
deriving Repr

/-- CDK `TaskInput.from_object(obj=...)`. -/
def TaskInput.from_object (obj : Dict) : TaskInput := ⟨obj⟩

/-- CDK `aws_stepfunctions.IntegrationPattern`. -/
inductive IntegrationPattern where
  | REQUEST_RESPONSE
  | RUN_JOB
  | WAIT_FOR_TASK_TOKEN
deriving Repr, DecidableEq

/-- CDK `aws_stepfunctions.JsonPath` constants used by the source. -/
inductive JsonPath where
  | DISCARD
deriving Repr, DecidableEq

/-- CDK `aws_stepfunctions_tasks.GlueStartJobRun`: the configuration the
source passes when constructing the Glue job-run task. -/
structure GlueStartJobRun where
  construct_id : String
  glue_job_name : String
  integration_pattern : IntegrationPattern
  arguments : Option TaskInput
  result_path : JsonPath
deriving Repr

/-- CDK `aws_stepfunctions.CustomState`: a raw Amazon-States-Language state
given by its literal JSON. -/
structure CustomState where
  construct_id : String
  state_json : Json
deriving Repr

/-- A state of the generated state-machine definition. -/
inductive State where
  | glueStartJobRun : GlueStartJobRun → State
  | customState : CustomState → State
deriving Repr

/-- A CDK chain of states.  `State.next` only ever composes states
sequentially, so a chain is the list of its states in execution order:
there is no constructor for branching or parallel fan-out. -/
abbrev Chain := List State

/-- CDK `start.next(nextState)`: sequential composition of two states. -/
def State.next (a b : State) : Chain := [a, b]

/-- CDK `aws_iam.Effect`. -/
inductive Effect where
  | ALLOW
  | DENY
deriving Repr, DecidableEq

/-- CDK `aws_iam.PolicyStatement` as constructed by the source. -/
structure PolicyStatement where
  effect : Effect
  actions : List String
  resources : List String
deriving Repr, DecidableEq

/-- CDK `aws_stepfunctions.StateMachineType`. -/
inductive StateMachineType where
  | STANDARD
  | EXPRESS
deriving Repr, DecidableEq

/-- The declared Step Functions state machine: its name, environment, the
definition chain, its type, and the policy statements this code adds to its
execution role. -/
structure StateMachine where
  name : String
  environment_id : String
  definition : Chain
  state_machine_type : StateMachineType
  role_policy : List PolicyStatement
deriving Repr

/-- CDK `StateMachine.add_to_role_policy`: appends a statement to the
role policy of the machine. -/
def StateMachine.add_to_role_policy (m : StateMachine) (s : PolicyStatement) :
    StateMachine :=
  { m with role_policy := m.role_policy ++ [s] }

/-- Modelled from the spec: `StateMachineStage.create_state_machine` comes
from `aws_ddk_core.pipelines`, which is not among the sources.  Per the spec
it "declares an AWS Step Functions state machine" from the supplied
definition; we model it as recording the given name, environment,
definition and type, with no role-policy statement of its own. -/
def create_state_machine (name : String) (environment_id : String)
    (definition : Chain) (smType : StateMachineType) : StateMachine :=
  { name := name
    environment_id := environment_id
    definition := definition
    state_machine_type := smType
    role_policy := [] }

/-- A `constructs.Construct` scope; only its identity matters here. -/
structure Construct where
  name : String
deriving Repr

/-- CDK `aws_stepfunctions_tasks.EventBridgePutEventsEntry`. -/
structure EventBridgePutEventsEntry where
  detail : TaskInput
  detail_type : String
  source : String
deriving Repr

/-- CDK `aws_events.RuleTargetInput`, produced by
`RuleTargetInput.from_object` (which accepts `None`). -/
structure RuleTargetInput where
  obj : Option Dict
deriving Repr

/-- CDK `RuleTargetInput.from_object(...)`. -/
def RuleTargetInput.from_object (obj : Option Dict) : RuleTargetInput := ⟨obj⟩

/-- CDK `aws_events_targets.SfnStateMachine` rule target. -/
structure SfnStateMachine where
  machine : StateMachine
  input : RuleTargetInput
deriving Repr

/-- CDK `aws_events.IRuleTarget`; the only implementation the source builds
is an `SfnStateMachine` target. -/
inductive IRuleTarget where
  | sfnStateMachine : SfnStateMachine → IRuleTarget
deriving Repr

/-- The `GlueTransformStage` object after `__init__` has run: the stage id
(set by the base constructor), the two attributes assigned in `__init__`,
and the state machine created by `create_state_machine` (augmented by
`add_to_role_policy`).  Modelled from the spec where the base class is
concerned: `StateMachineStage` (from `aws_ddk_core.pipelines`, not among
the sources) stores the created machine and exposes it as
`self.state_machine` / `self._state_machine`. -/
structure GlueTransformStage where
  id : String
  state_machine_input : Option Dict
  event_detail_type : String
  state_machine : StateMachine
deriving Repr

/-- `GlueTransformStage.__init__` from
`src/core/aws_ddk_core/stages/glue_transform.py`, line for line:
store `state_machine_input` and the `"-event-type"`-suffixed detail type,
build the `GlueStartJobRun` task (arguments attached only when `job_args`
is truthy), build the `crawl-object` `CustomState` with its literal
`state_json`, create the state machine over `start_job_run.next(crawl_object)`,
and add the `glue:StartCrawler` policy statement to its role. -/
def GlueTransformStage.init (scope : Construct) (id : String)
    (environment_id : String) (job_name : String) (crawler_name : String)
    (job_args : Option Dict := none) (state_machine_input : Option Dict := none) :
    GlueTransformStage :=
  let start_job_run : GlueStartJobRun :=
    { construct_id := "start-job-run"
      glue_job_name := job_name
      integration_pattern := IntegrationPattern.RUN_JOB
      arguments :=
        if dictTruthy job_args then
          some (TaskInput.from_object (job_args.getD []))
        else
          none
      result_path := JsonPath.DISCARD }
  let crawl_object : CustomState :=
    { construct_id := "crawl-object"
      state_json := Json.obj
        [ ("Type", Json.str "Task")
        , ("Resource", Json.str "arn:aws:states:::aws-sdk:glue:startCrawler")
        , ("Parameters", Json.obj [("Name", Json.str crawler_name)]) ] }
  let machine : StateMachine :=
    create_state_machine (id ++ "-state-machine") environment_id
      ((State.glueStartJobRun start_job_run).next (State.customState crawl_object))
      StateMachineType.STANDARD
  let machine := machine.add_to_role_policy
    { effect := Effect.ALLOW
      actions := ["glue:StartCrawler"]
      resources := ["*"] }
  { id := id
    state_machine_input := state_machine_input
    event_detail_type := id ++ "-event-type"
    state_machine := machine }

/-- `GlueTransformStage.get_output_event`. -/
def GlueTransformStage.get_output_event (s : GlueTransformStage) :
    EventBridgePutEventsEntry :=
  { detail := TaskInput.from_object
      [("message", Json.str (s.id ++ " stage has finished."))]
    detail_type := s.event_detail_type
    source := s.id }

/-- `GlueTransformStage.get_targets` (annotated
`Optional[List[IRuleTarget]]` in the source, hence the `Option`). -/
def GlueTransformStage.get_targets (s : GlueTransformStage) :
    Option (List IRuleTarget) :=
  some [IRuleTarget.sfnStateMachine
    { machine := s.state_machine
      input := RuleTargetInput.from_object s.state_machine_input }]

/-- Observer: is a state the Glue job-run task? -/
def State.isJobRun : State → Bool
  | .glueStartJobRun _ => true
  | .customState _ => false

/-- Observer: is a state the crawler-start task, i.e. a custom state whose
`Resource` is the `glue:startCrawler` SDK integration ARN? -/
def State.isStartCrawler : State → Bool
  | .glueStartJobRun _ => false
  | .customState c =>
    match c.state_json.lookup "Resource" with
    | some (Json.str r) => r == "arn:aws:states:::aws-sdk:glue:startCrawler"
    | _ => false

/-- An accessor call a caller of the stage may make after construction. -/
inductive StageCall where
  | outputEvent
  | targets
deriving Repr, DecidableEq

/-- The result of one accessor call. -/
inductive StageResult where
  | event : EventBridgePutEventsEntry → StageResult
  | targetList : Option (List IRuleTarget) → StageResult
deriving Repr

/-- State-passing form of one accessor method call: the Python bodies of
`get_output_event` and `get_targets` only read attributes and assign
nothing, so the post-state of the object is the pre-state. -/
def callStage (s : GlueTransformStage) : StageCall → StageResult × GlueTransformStage
  | .outputEvent => (.event s.get_output_event, s)
  | .targets => (.targetList s.get_targets, s)

/-- Run a sequence of accessor calls on the stage, threading the object
state and collecting the results in order. -/
def runCalls (s : GlueTransformStage) : List StageCall →
    List StageResult × GlueTransformStage
  | [] => ([], s)
  | c :: cs =>
    ((callStage s c).1 :: (runCalls (callStage s c).2 cs).1,
      (runCalls (callStage s c).2 cs).2)

/-- Structural well-formedness of a constructed stage, following the
testable properties the spec lists: a two-step definition, job run first and
crawler start second, a role policy granting only `glue:StartCrawler`, the
suffixed detail type, and a single rule target. -/
def validStage (s : GlueTransformStage) : Prop :=
  s.state_machine.definition.length = 2 ∧
  s.state_machine.definition.map State.isJobRun = [true, false] ∧
  s.state_machine.definition.map State.isStartCrawler = [false, true] ∧
  s.state_machine.role_policy.map PolicyStatement.actions = [["glue:StartCrawler"]] ∧
  s.event_detail_type = s.id ++ "-event-type" ∧
  s.get_targets.map List.length = some 1

theorem callStage_snd (s : GlueTransformStage) (c : StageCall) :
    (callStage s c).2 = s := by
  cases c <;> rfl

theorem runCalls_eq (s : GlueTransformStage) (calls : List StageCall) :
    runCalls s calls = (calls.map (fun c => (callStage s c).1), s) := by
  induction calls with
  | nil => rfl
  | cons c cs ih =>
    simp only [runCalls, callStage_snd, ih, List.map_cons]

/-- Claim C1: every construction of `GlueTransformStage` yields a
state-machine definition that is exactly the two-element sequential chain
job-run task first, crawler-start task second.  `Chain` is a list built by
`State.next`, so the definition has no branching and no fan-out. -/
theorem glueTransform_definition_two_sequential_steps (scope : Construct)
    (id environment_id job_name crawler_name : String)
    (job_args state_machine_input : Option Dict) :
    ∃ t c,
      (GlueTransformStage.init scope id environment_id job_name crawler_name
          job_args state_machine_input).state_machine.definition
        = [State.glueStartJobRun t, State.customState c] ∧
      (State.glueStartJobRun t).isJobRun = true ∧
      (State.customState c).isStartCrawler = true := by
  exact ⟨_, _, rfl, rfl, rfl⟩

/-- Claim C2: the two steps reference the caller-supplied resource names:
the glue job name of the job-run task equals the `job_name` parameter, and
the crawler task state JSON has `Resource` equal to the `glue:startCrawler`
SDK integration ARN and `Parameters.Name` equal to the `crawler_name`
parameter. -/
theorem glueTransform_steps_use_supplied_names (scope : Construct)
    (id environment_id job_name crawler_name : String)
    (job_args state_machine_input : Option Dict) :
    ∃ t c,
      (GlueTransformStage.init scope id environment_id job_name crawler_name
          job_args state_machine_input).state_machine.definition
        = [State.glueStartJobRun t, State.customState c] ∧
      t.glue_job_name = job_name ∧
      c.state_json.lookup "Resource"
        = some (Json.str "arn:aws:states:::aws-sdk:glue:startCrawler") ∧
      (c.state_json.lookup "Parameters").bind (fun p => p.lookup "Name")
        = some (Json.str crawler_name) := by
  exact ⟨_, _, rfl, rfl, rfl, rfl⟩

/-- Claim C3: the role policy of the state machine consists of exactly one
statement, with effect `ALLOW` and action list exactly
`["glue:StartCrawler"]`; this code grants no other action. -/
theorem glueTransform_role_policy_only_startCrawler (scope : Construct)
    (id environment_id job_name crawler_name : String)
    (job_args state_machine_input : Option Dict) :
    (GlueTransformStage.init scope id environment_id job_name crawler_name
        job_args state_machine_input).state_machine.role_policy
      = [{ effect := Effect.ALLOW
           actions := ["glue:StartCrawler"]
           resources := ["*"] }] := rfl

/-- Claim C4: `get_output_event` always returns an entry whose detail type
is the stage id suffixed with `"-event-type"`; it equals the
`event_detail_type` attribute fixed at construction time. -/
theorem glueTransform_output_event_detail_type (scope : Construct)
    (id environment_id job_name crawler_name : String)
    (job_args state_machine_input : Option Dict) :
    (GlueTransformStage.init scope id environment_id job_name crawler_name
        job_args state_machine_input).get_output_event.detail_type
      = id ++ "-event-type" ∧
    (GlueTransformStage.init scope id environment_id job_name crawler_name
        job_args state_machine_input).event_detail_type
      = id ++ "-event-type" := ⟨rfl, rfl⟩

/-- Claim C5: `get_targets` returns a list of length exactly one whose sole
element is the rule target referencing the state machine created by the
constructor of this stage. -/
theorem glueTransform_targets_single_created_machine (scope : Construct)
    (id environment_id job_name crawler_name : String)
    (job_args state_machine_input : Option Dict) :
    ∃ l,
      (GlueTransformStage.init scope id environment_id job_name crawler_name
          job_args state_machine_input).get_targets = some l ∧
      l.length = 1 ∧
      l = [IRuleTarget.sfnStateMachine
        { machine := (GlueTransformStage.init scope id environment_id job_name
            crawler_name job_args state_machine_input).state_machine
          input := RuleTargetInput.from_object state_machine_input }] := by
  exact ⟨_, rfl, rfl, rfl⟩

/-- Claim C6 counterexample: the claim that construction with an empty job
name or an empty crawler name does not produce a valid stage is false on
the code: constructing with both names empty succeeds and produces a stage
satisfying every structural property of a stage (`validStage`), with the
empty strings embedded verbatim. -/
theorem glueTransform_empty_names_accepted :
    validStage (GlueTransformStage.init ⟨"app"⟩ "stage-id" "dev" "" "" none none) ∧
    (∃ t c,
      (GlueTransformStage.init ⟨"app"⟩ "stage-id" "dev" "" "" none none
          ).state_machine.definition
        = [State.glueStartJobRun t, State.customState c] ∧
      t.glue_job_name = "" ∧
      (c.state_json.lookup "Parameters").bind (fun p => p.lookup "Name")
        = some (Json.str "")) := by
  exact ⟨⟨rfl, rfl, rfl, rfl, rfl, rfl⟩, ⟨_, _, rfl, rfl, rfl⟩⟩

/-- Claim C6 amended: the caller-supplied names are stored write-once and
are assumed to denote pre-existing external resources, but the code does
not enforce non-emptiness: for every choice of names, empty strings
included, construction succeeds, yields a structurally valid stage, and
embeds the given names verbatim. -/
theorem glueTransform_no_input_validation (scope : Construct)
    (id environment_id job_name crawler_name : String)
    (job_args state_machine_input : Option Dict) :
    validStage (GlueTransformStage.init scope id environment_id job_name
        crawler_name job_args state_machine_input) ∧
    (∃ t c,
      (GlueTransformStage.init scope id environment_id job_name crawler_name
          job_args state_machine_input).state_machine.definition
        = [State.glueStartJobRun t, State.customState c] ∧
      t.glue_job_name = job_name ∧
      (c.state_json.lookup "Parameters").bind (fun p => p.lookup "Name")
        = some (Json.str crawler_name)) := by
  exact ⟨⟨rfl, rfl, rfl, rfl, rfl, rfl⟩, ⟨_, _, rfl, rfl, rfl⟩⟩

/-- Claim C7: the accessors do not mutate the stage.  Any sequence of
`get_output_event` and `get_targets` calls, in any order, leaves the whole
construction-time state (hence the stored state-machine input, the detail
type, the definition and the policy) unchanged, and each call returns the
result determined by the initial stage alone, so repeated calls to the same
accessor return equal results. -/
theorem glueTransform_accessors_pure (scope : Construct)
    (id environment_id job_name crawler_name : String)
    (job_args state_machine_input : Option Dict) (calls : List StageCall) :
    (runCalls (GlueTransformStage.init scope id environment_id job_name
        crawler_name job_args state_machine_input) calls).2
      = GlueTransformStage.init scope id environment_id job_name crawler_name
          job_args state_machine_input ∧
    (runCalls (GlueTransformStage.init scope id environment_id job_name
        crawler_name job_args state_machine_input) calls).1
      = calls.map (fun c =>
          (callStage (GlueTransformStage.init scope id environment_id job_name
            crawler_name job_args state_machine_input) c).1) := by
  rw [runCalls_eq]
  exact ⟨rfl, rfl⟩

/-- Claim C8: passing `job_args` as the empty dictionary behaves exactly
like omitting it: the Python code tests truthiness, so in both cases the
job-run task carries no arguments, and the two constructions produce equal
stages. -/
theorem glueTransform_empty_job_args_like_none (scope : Construct)
    (id environment_id job_name crawler_name : String)
    (state_machine_input : Option Dict) :
    GlueTransformStage.init scope id environment_id job_name crawler_name
        (some []) state_machine_input
      = GlueTransformStage.init scope id environment_id job_name crawler_name
          none state_machine_input ∧
    (∃ t c,
      (GlueTransformStage.init scope id environment_id job_name crawler_name
          (some []) state_machine_input).state_machine.definition
        = [State.glueStartJobRun t, State.customState c] ∧
      t.arguments = none) := by
  exact ⟨rfl, ⟨_, _, rfl, rfl⟩⟩

/-- Claim C9: although annotated `Optional[List[IRuleTarget]]`,
`get_targets` never returns `None`: it always returns a one-element list,
and the input of the target is built from the `state_machine_input`
supplied at construction, also when that input is `None` (the quantifier
covers `state_machine_input = none`). -/
theorem glueTransform_targets_never_none (scope : Construct)
    (id environment_id job_name crawler_name : String)
    (job_args state_machine_input : Option Dict) :
    (GlueTransformStage.init scope id environment_id job_name crawler_name
        job_args state_machine_input).get_targets ≠ none ∧
    (∃ target,
      (GlueTransformStage.init scope id environment_id job_name crawler_name
          job_args state_machine_input).get_targets
        = some [IRuleTarget.sfnStateMachine target] ∧
      target.input = RuleTargetInput.from_object state_machine_input) := by
  exact ⟨Option.some_ne_none _, ⟨_, rfl, rfl⟩⟩

/-- Claim C10: the policy statement granting `glue:StartCrawler` has
resource list exactly `["*"]`, independent of the `crawler_name` parameter:
the permission applies to every crawler, not only to the named one. -/
theorem glueTransform_policy_resources_wildcard (scope : Construct)
    (id environment_id job_name crawler_name : String)
    (job_args state_machine_input : Option Dict) :
    ∃ stmt,
      (GlueTransformStage.init scope id environment_id job_name crawler_name
          job_args state_machine_input).state_machine.role_policy = [stmt] ∧
      stmt.actions = ["glue:StartCrawler"] ∧
      stmt.resources = ["*"] := by
  exact ⟨_, rfl, rfl, rfl⟩

end AwsDdk
